import Mathlib

/-!
Verification of the tool-result caching and two-phase (quick/detailed)
response orchestration of a DeFi-assistant chat agent.

The development shallowly embeds the TypeScript sources:
- `ToolCacheManager` (TTL cache, pre-warming, cached tool execution),
- `ComponentGenerator` (UI component generation with cache and fallback),
- `UIAwareMc2fiAgent.shouldGenerateUI` (two variants found in the sources),
- `QuickResponseAgent` (quick reply, detailed reply with forced retry,
  message ordering on the connection).

JavaScript values are modelled by the inductive `JSVal`; numbers are carried
by their decimal text (the text `JSON.stringify` would print), machine time
by natural-number milliseconds, and the single-threaded event loop by
explicit state passing.  Fallible asynchronous calls (LLM turns, tool
invocations) are modelled as `Except` values supplied as oracles: a resolved
promise is `Except.ok`, a rejected one `Except.error`.
-/

/-- Model of a JavaScript value: `undefined`, `null`, booleans, numbers
(carried by their printed decimal text), strings, arrays and objects
(fields in insertion order). -/
inductive JSVal : Type where
  | undef : JSVal
  | null : JSVal
  | bool : Bool → JSVal
  | num : String → JSVal
  | str : String → JSVal
  | arr : List JSVal → JSVal
  | obj : List (String × JSVal) → JSVal

/-- JavaScript truthiness test (`!v` is `jsFalsy v`): `undefined`, `null`,
`false`, zero, `NaN` and the empty string are falsy; every array and every
object is truthy. -/
def jsFalsy : JSVal → Bool
  | .undef => true
  | .null => true
  | .bool b => !b
  | .num r => r == "0" || r == "-0" || r == "NaN"
  | .str s => s.isEmpty
  | .arr _ => false
  | .obj _ => false

/-- Strict equality to `null` (`v === null`). -/
def isNull : JSVal → Bool
  | .null => true
  | _ => false

/-- Strict equality to `undefined` (`v === undefined`). -/
def isUndef : JSVal → Bool
  | .undef => true
  | _ => false

/-- Escape of one character inside a JSON string literal. -/
def jsonEscapeChar (c : Char) : String :=
  if c = '"' then "\\\""
  else if c = '\\' then "\\\\"
  else if c = '\n' then "\\n"
  else if c = '\t' then "\\t"
  else if c = '\r' then "\\r"
  else String.singleton c

/-- Escape of a JSON string body. -/
def jsonEscape (s : String) : String :=
  String.join (s.toList.map jsonEscapeChar)

mutual

/-- Model of `JSON.stringify` (no spacing): objects drop fields whose value
is `undefined`, arrays render `undefined` elements as `null`.  A top-level
`undefined` renders as the text "undefined" (in the JavaScript source that
case returns the undefined value; it is never reached on the modelled
paths). -/
def stringify : JSVal → String
  | .undef => "undefined"
  | .null => "null"
  | .bool true => "true"
  | .bool false => "false"
  | .num r => r
  | .str s => "\"" ++ jsonEscape s ++ "\""
  | .arr xs => "[" ++ String.intercalate "," (stringifyArr xs) ++ "]"
  | .obj fs => "\x7b" ++ String.intercalate "," (stringifyObj fs) ++ "\x7d"

/-- Array elements of `JSON.stringify`: `undefined` becomes `null`. -/
def stringifyArr : List JSVal → List String
  | [] => []
  | .undef :: xs => "null" :: stringifyArr xs
  | x :: xs => stringify x :: stringifyArr xs

/-- Object fields of `JSON.stringify`: fields holding `undefined` are
omitted. -/
def stringifyObj : List (String × JSVal) → List String
  | [] => []
  | (_, .undef) :: fs => stringifyObj fs
  | (k, v) :: fs => ("\"" ++ jsonEscape k ++ "\":" ++ stringify v) :: stringifyObj fs

end

/-- ASCII lower-casing, modelling `String.prototype.toLowerCase` on the
ASCII strings that occur in the program. -/
def jsToLower (s : String) : String :=
  String.mk (s.toList.map Char.toLower)

/-- Whitespace class of the JavaScript regular expression `\s` (restricted
to the ASCII range, which covers every string the program builds). -/
def isJsSpace (c : Char) : Bool :=
  c == ' ' || c == '\t' || c == '\n' || c == '\r' || c.toNat == 11 || c.toNat == 12

/-- Replacement of every maximal run of whitespace by one underscore, the
effect of `replace(/\s+/g, "_")`.  The flag records whether the previous
character belonged to a whitespace run. -/
def collapseSpacesAux : Bool → List Char → List Char
  | _, [] => []
  | inRun, c :: cs =>
    if isJsSpace c then
      if inRun then collapseSpacesAux true cs
      else '_' :: collapseSpacesAux true cs
    else c :: collapseSpacesAux false cs

/-- The query normalisation `q.toLowerCase().replace(/\s+/g, "_")` used by
both cache-key builders. -/
def normalizeQuery (q : String) : String :=
  String.mk (collapseSpacesAux false (jsToLower q).toList)

/-- Boolean test that `p` starts the list `l`. -/
def charListIsPrefixOf : List Char → List Char → Bool
  | [], _ => true
  | _ :: _, [] => false
  | a :: as, b :: bs => a == b && charListIsPrefixOf as bs

/-- Boolean test that `n` occurs contiguously inside `l`. -/
def charListIsInfixOf (n : List Char) : List Char → Bool
  | [] => charListIsPrefixOf n []
  | b :: bs => charListIsPrefixOf n (b :: bs) || charListIsInfixOf n bs

/-- Model of `haystack.includes(needle)` on strings. -/
def strContains (haystack needle : String) : Bool :=
  charListIsInfixOf needle.toList haystack.toList

/-- Lexicographic comparison by character code, the default comparator of
`Array.prototype.sort` on the (ASCII) strings the program sorts. -/
def charListLe : List Char → List Char → Bool
  | [], _ => true
  | _ :: _, [] => false
  | a :: as, b :: bs =>
    if a.toNat < b.toNat then true
    else if b.toNat < a.toNat then false
    else charListLe as bs

/-- Insertion of a string into a sorted list of strings. -/
def insertSorted (s : String) : List String → List String
  | [] => [s]
  | t :: ts => if charListLe s.toList t.toList then s :: t :: ts else t :: insertSorted s ts

/-- Model of `Array.prototype.sort()` on a list of strings. -/
def sortStrings (l : List String) : List String :=
  l.foldr insertSorted []

/-- Model of `Map.prototype.get` over an association-list representation of
a JavaScript `Map` with string keys. -/
def mapGet {α : Type} : List (String × α) → String → Option α
  | [], _ => none
  | p :: t, key => if p.1 == key then some p.2 else mapGet t key

/-- Model of `Map.prototype.delete` (the association list afterwards holds
no binding for the key). -/
def mapDelete {α : Type} : List (String × α) → String → List (String × α)
  | [], _ => []
  | p :: t, key => if p.1 == key then mapDelete t key else p :: mapDelete t key

/-- Model of `Map.prototype.set`: unconditional overwrite of the binding
for the key (insertion order is irrelevant to every modelled operation). -/
def mapSet {α : Type} (m : List (String × α)) (key : String) (v : α) : List (String × α) :=
  (key, v) :: mapDelete m key

namespace ToolCacheManager

/-- A cached tool result, `CachedToolResult` of the source: the result
value, the epoch-millisecond timestamp of the `set`, and the query and tool
name it was stored under. -/
structure CachedToolResult : Type where
  result : JSVal
  timestamp : Nat
  query : String
  toolName : String

/-- The in-memory cache: an association list from cache key to entry,
modelling the `Map` (insertion order is irrelevant to every modelled
operation). -/
abbrev CacheState := List (String × CachedToolResult)

/-- The TTL constant `CACHE_TTL = 5 * 60 * 1000` (five minutes in
milliseconds). -/
def CACHE_TTL : Nat := 5 * 60 * 1000

/-- The cache key builder of `ToolCacheManager`:
`toolName + "_" + query.toLowerCase().replace(/\s+/g, "_") + "_" + paramsStr`
where `paramsStr` is `JSON.stringify(params)` for truthy `params` and the
empty string otherwise. -/
def generateCacheKey (toolName query : String) (params : JSVal) : String :=
  let paramsStr := if jsFalsy params then "" else stringify params
  toolName ++ "_" ++ normalizeQuery query ++ "_" ++ paramsStr

/-- `getCachedResult`: on a fresh entry (`now - timestamp < CACHE_TTL`)
return the stored result and leave the cache unchanged; on an expired entry
delete it and return `null`; on a missing key return `null`. -/
def getCachedResult (st : CacheState) (now : Nat) (toolName query : String)
    (params : JSVal) : JSVal × CacheState :=
  let cacheKey := generateCacheKey toolName query params
  match mapGet st cacheKey with
  | some cached =>
    if now - cached.timestamp < CACHE_TTL then (cached.result, st)
    else (JSVal.null, mapDelete st cacheKey)
  | none => (JSVal.null, st)

/-- `setCachedResult`: unconditionally overwrite the entry for the key with
the result stamped at `now`. -/
def setCachedResult (st : CacheState) (now : Nat) (toolName query : String)
    (result : JSVal) (params : JSVal) : CacheState :=
  mapSet st (generateCacheKey toolName query params)
    { result := result, timestamp := now, query := query, toolName := toolName }

/-- `cleanup`: iterate over the entries and delete every entry strictly
older than the TTL (`now - value.timestamp > CACHE_TTL`). -/
def cleanup : CacheState → Nat → CacheState
  | [], _ => []
  | p :: t, now =>
    if now - p.2.timestamp > CACHE_TTL then cleanup t now
    else p :: cleanup t now

end ToolCacheManager

/-- One element of a `toolResults` array as the agents consume it: a record
with a `toolName` field and a `result` value. -/
structure ToolResultEntry : Type where
  toolName : String
  result : JSVal

namespace ToolCacheManager

/-- The base tool set returned by `getTools(env)`, restricted to the three
tools the pre-warmer probes for; a tool is `none` when absent from the
returned record.  A tool function maps its params object to a resolved
(`ok`) or rejected (`error`) outcome. -/
structure BaseTools : Type where
  searchTokens : Option (JSVal → Except String JSVal)
  searchAddress : Option (JSVal → Except String JSVal)
  searchDigitalAsset : Option (JSVal → Except String JSVal)

/-- `executeToolWithCache`: return a cached value when the lookup yields
anything other than `null`; otherwise run the tool function (on
`params || { query }`), cache a resolved result, and convert a rejection
into a resolved `null` (the surrounding try/catch logs and returns
`null`). -/
def executeToolWithCache (st : CacheState) (now : Nat) (toolName query : String)
    (toolFunction : JSVal → Except String JSVal) (params : JSVal) : JSVal × CacheState :=
  let lookup := getCachedResult st now toolName query params
  if !(isNull lookup.1) then lookup
  else
    match toolFunction (if jsFalsy params then JSVal.obj [("query", JSVal.str query)] else params) with
    | .ok result => (result, setCachedResult lookup.2 now toolName query result params)
    | .error _ => (JSVal.null, lookup.2)

/-- `preWarmToolCalls`: keyword-match the lower-cased query and, for each
match whose tool exists, store the outcome of `executeToolWithCache` in the
returned map (insertion order `searchTokens`, `searchAddress`,
`searchDigitalAsset`).  The event loop is single threaded, so the calls are
composed by passing the cache state through in issue order. -/
def preWarmToolCalls (st : CacheState) (now : Nat) (tools : BaseTools)
    (query : String) : List (String × JSVal) × CacheState :=
  let queryLower := jsToLower query
  let acc0 : List (String × JSVal) × CacheState := ([], st)
  let acc1 :=
    if strContains queryLower "token" || strContains queryLower "search" then
      match tools.searchTokens with
      | some fn =>
        let step := executeToolWithCache acc0.2 now "searchTokens" query fn
          (JSVal.obj [("query", JSVal.str queryLower)])
        (acc0.1 ++ [("searchTokens", step.1)], step.2)
      | none => acc0
    else acc0
  let acc2 :=
    if strContains queryLower "portfolio" || strContains queryLower "address" then
      match tools.searchAddress with
      | some fn =>
        let step := executeToolWithCache acc1.2 now "searchAddress" query fn
          (JSVal.obj [("address", JSVal.str "0x")])
        (acc1.1 ++ [("searchAddress", step.1)], step.2)
      | none => acc1
    else acc1
  let acc3 :=
    if strContains queryLower "digital" || strContains queryLower "asset" then
      match tools.searchDigitalAsset with
      | some fn =>
        let step := executeToolWithCache acc2.2 now "searchDigitalAsset" query fn
          (JSVal.obj [("query", JSVal.str query)])
        (acc2.1 ++ [("searchDigitalAsset", step.1)], step.2)
      | none => acc2
    else acc2
  acc3

/-- Every tool present in the record rejects on every input. -/
def alwaysRejects (tools : BaseTools) : Prop :=
  (∀ fn, tools.searchTokens = some fn → ∀ p, ∃ e, fn p = Except.error e) ∧
  (∀ fn, tools.searchAddress = some fn → ∀ p, ∃ e, fn p = Except.error e) ∧
  (∀ fn, tools.searchDigitalAsset = some fn → ∀ p, ∃ e, fn p = Except.error e)

end ToolCacheManager

namespace ComponentGenerator

/-- The generated UI component, the shape `UIComponentSchema` constrains:
JSX source text, a props bag, an explanation, and one of the component
types "chart", "data-display", "interactive", "comparison". -/
structure UIComponent : Type where
  componentCode : String
  props : List (String × JSVal)
  explanation : String
  componentType : String

/-- The hard timeout (milliseconds) raced against the component-generation
LLM call, `UI_GENERATION_TIMEOUT = 15000`. -/
def UI_GENERATION_TIMEOUT : Nat := 15000

/-- View of a tool-result record as the JavaScript object it is, for
storing in the fallback props. -/
def entryToJSVal (e : ToolResultEntry) : JSVal :=
  JSVal.obj [("toolName", JSVal.str e.toolName), ("result", e.result)]

/-- The deterministic fallback component built in the catch branch of
`generateStyledComponent` (the interpolated count replaces the template
hole `toolResults.length`). -/
def fallbackComponent (toolResults : List ToolResultEntry) : UIComponent where
  componentCode :=
    "\n<div className=\"rounded-lg p-4 bg-neutral-100 dark:bg-neutral-900 max-w-md mx-auto\">\n  <h2 className=\"text-xl font-semibold text-neutral-900 dark:text-neutral-50 mb-4\">Data Analysis</h2>\n  <div className=\"text-sm text-muted-foreground\">\n    <p>🔍 Analyzing data...</p>\n    <p>📊 " ++ toString toolResults.length ++ " tool result(s) received</p>\n    <p>⚠️ UI generation took too long, showing simplified view</p>\n  </div>\n</div>"
  props := [("toolResults", JSVal.arr (toolResults.map entryToJSVal))]
  explanation := "Fallback component due to UI generation timeout"
  componentType := "data-display"

/-- The component cache key of `ComponentGenerator.generateCacheKey`:
lower-cased context with whitespace runs replaced by underscores, truncated
to 50 characters; the sorted, comma-joined tool names; and the sorted,
underscore-joined coarse shape descriptor of each result
(empty / array_N / object_N / primitive). -/
def generateCacheKey (toolResults : List ToolResultEntry) (context : String) : String :=
  let toolTypes := String.intercalate "," (sortStrings (toolResults.map (·.toolName)))
  let contextHash := String.mk ((collapseSpacesAux false (jsToLower context).toList).take 50)
  let dataStructure := String.intercalate "_" (sortStrings (toolResults.map (fun r =>
    if jsFalsy r.result || isNull r.result || isUndef r.result then "empty"
    else match r.result with
    | JSVal.arr xs => "array_" ++ toString xs.length
    | JSVal.obj fs => "object_" ++ toString fs.length
    | _ => "primitive")))
  contextHash ++ "_" ++ toolTypes ++ "_" ++ dataStructure

/-- The component cache, a `Map` from cache key to generated component. -/
abbrev ComponentCache := List (String × UIComponent)

/-- `generateStyledComponent`: on a cache hit return the cached component
without touching the LLM; on a miss run the generation race (`gen` is the
outcome of `Promise.race` between the structured LLM call and the
15-second timeout: a rejection models both a thrown error and the timeout
firing), cache and return a success, and return the deterministic fallback
on any rejection.  The third component records whether the LLM call was
issued; the function is total, so the promise always resolves. -/
def generateStyledComponent (cache : ComponentCache) (gen : Except String UIComponent)
    (toolResults : List ToolResultEntry) (context : String) :
    UIComponent × ComponentCache × Bool :=
  let cacheKey := generateCacheKey toolResults context
  match mapGet cache cacheKey with
  | some cached => (cached, cache, false)
  | none =>
    match gen with
    | .ok comp => (comp, mapSet cache cacheKey comp, true)
    | .error _ => (fallbackComponent toolResults, cache, true)

end ComponentGenerator

namespace UIAwareMc2fiAgent

/-- The fixed trigger keyword list `uiTriggers` shared by both
`shouldGenerateUI` variants. -/
def uiTriggers : List String :=
  ["price", "token", "yield", "portfolio", "chart", "data",
   "analysis", "comparison", "stats", "metrics", "vault",
   "apy", "apr", "liquidity", "volume", "market cap"]

/-- First `shouldGenerateUI` variant (the one whose decision also inspects
the tool results): false when `toolResults` is null/undefined (`none`) or
empty; otherwise true when the lower-cased message contains a trigger
keyword, or some result stringifies to text containing a trigger keyword,
or some result is an array or a non-empty object. -/
def shouldGenerateUI_v1 (toolResults : Option (List JSVal)) (userMessage : String) : Bool :=
  match toolResults with
  | none => false
  | some rs =>
    if rs.isEmpty then false
    else
      let messageLower := jsToLower userMessage
      let hasUITrigger := uiTriggers.any (fun trigger => strContains messageLower trigger)
      let hasVisualizableData := rs.any (fun result =>
        uiTriggers.any (fun trigger => strContains (jsToLower (stringify result)) trigger)
        || (match result with
            | JSVal.arr _ => true
            | JSVal.obj fs => fs.length > 0
            | _ => false))
      hasUITrigger || hasVisualizableData

/-- Second `shouldGenerateUI` variant: false when `toolResults` is
null/undefined or empty; otherwise true exactly when the lower-cased
message contains a trigger keyword, regardless of the result content. -/
def shouldGenerateUI_v2 (toolResults : Option (List JSVal)) (userMessage : String) : Bool :=
  match toolResults with
  | none => false
  | some rs =>
    if rs.isEmpty then false
    else uiTriggers.any (fun trigger => strContains (jsToLower userMessage) trigger)

end UIAwareMc2fiAgent

namespace QuickResponseAgent

/-- The record `processMessageWithUI` resolves to: the response text, the
tool calls and tool results of the turn (`none` models a null/undefined
field, `some` an array), and an optional generated UI component. -/
structure TurnResult : Type where
  text : String
  toolCalls : Option (List String)
  toolResults : Option (List ToolResultEntry)
  uiComponent : Option ComponentGenerator.UIComponent

/-- Truthiness-and-length test `!xs || xs.length === 0` on an optional
array. -/
def optListMissingOrEmpty {α : Type} : Option (List α) → Bool
  | none => true
  | some l => l.isEmpty

/-- The follow-up trigger of `generateDetailedResponse`:
`!result.toolCalls || result.toolCalls.length === 0 || !result.toolResults
|| result.toolResults.length === 0 || result.toolResults.every(r =>
!r.result || r.result === null || r.result === undefined)`. -/
def needsFollowUp (r : TurnResult) : Bool :=
  optListMissingOrEmpty r.toolCalls ||
  optListMissingOrEmpty r.toolResults ||
  (match r.toolResults with
   | none => true
   | some l => l.all (fun tr => jsFalsy tr.result || isNull tr.result || isUndef tr.result))

/-- The supersession test on the follow-up result:
`followUpResult.toolCalls && followUpResult.toolCalls.length > 0`. -/
def followUpHasToolCalls (r : TurnResult) : Bool :=
  match r.toolCalls with
  | none => false
  | some l => decide (l.length > 0)

/-- The retry core of `generateDetailedResponse`: run the main turn; when
the follow-up trigger fires, run exactly one follow-up turn and keep its
result only when it made at least one tool call.  The oracle `turns` yields
the outcome of the n-th `processMessageWithUI` call; the second component
counts how many turns were issued. -/
def generateDetailedResponse (turns : Nat → TurnResult) : TurnResult × Nat :=
  let result := turns 0
  if needsFollowUp result then
    let followUpResult := turns 1
    if followUpHasToolCalls followUpResult then (followUpResult, 2)
    else (result, 2)
  else (result, 1)

/-- The fixed fallback string of the quick-response catch branch. -/
def quickFallback : String :=
  "Great question! I'm gathering real-time data for you and will provide detailed insights shortly. 🤔"

/-- `generateQuickResponse`: return the text of the resolved LLM call, and
the fixed fallback string when the call rejects; the function is total, so
the promise never rejects. -/
def generateQuickResponse (llm : Except String String) : String :=
  match llm with
  | .ok text => text
  | .error _ => quickFallback

/-- A message sent on the connection: the payload fields relevant to the
ordering guarantee (`none` models an absent JSON field). -/
structure OutMsg : Type where
  mtype : String
  content : String
  isQuickResponse : Option Bool
  requestId : Option String
  uiComponent : Option ComponentGenerator.UIComponent

/-- The error text of the detailed-response catch branch. -/
def detailedErrorContent : String :=
  "I encountered an issue generating the detailed response. Please try again."

/-- The messages `generateDetailedResponse` sends for one request: one
detailed response (`isQuickResponse: false`) carrying the request id on
success, one error message (no `isQuickResponse` field, same request id)
when the pipeline rejects.  The oracle is the supply of turn outcomes, or a
rejection of the whole pipeline. -/
def generateDetailedResponseMsgs (requestId : String)
    (outcome : Except String (Nat → TurnResult)) : List OutMsg :=
  match outcome with
  | .ok turns =>
    let r := (generateDetailedResponse turns).1
    [{ mtype := "response", content := r.text, isQuickResponse := some false,
       requestId := some requestId, uiComponent := r.uiComponent }]
  | .error _ =>
    [{ mtype := "error", content := detailedErrorContent, isQuickResponse := none,
       requestId := some requestId, uiComponent := none }]

/-- The trace of messages `onMessage` sends on the connection for one chat
request: the quick response (sent synchronously before the detailed
pipeline is started, so first in the single-threaded trace) followed by the
detailed-pipeline messages.  Pre-warming and the pending-request map send
nothing and are modelled by `ToolCacheManager.preWarmToolCalls` above. -/
def onMessageChat (requestId : String) (quickLLM : Except String String)
    (detailedOutcome : Except String (Nat → TurnResult)) : List OutMsg :=
  { mtype := "response", content := generateQuickResponse quickLLM,
    isQuickResponse := some true, requestId := some requestId, uiComponent := none }
    :: generateDetailedResponseMsgs requestId detailedOutcome

end QuickResponseAgent

section Theorems

open ToolCacheManager ComponentGenerator UIAwareMc2fiAgent QuickResponseAgent

/-- Helper: a deleted key is absent from the map. -/
theorem mapGet_mapDelete_self {α : Type} (m : List (String × α)) (key : String) :
    mapGet (mapDelete m key) key = none := by
  induction m with
  | nil => rfl
  | cons p t ih =>
    by_cases hp : p.1 = key
    · simpa [mapDelete, hp] using ih
    · have hb : (p.1 == key) = false := beq_eq_false_iff_ne.mpr hp
      simpa [mapDelete, hb, mapGet] using ih

/-- Helper: the cleanup sweep cannot make an absent key present. -/
theorem mapGet_cleanup_of_none (m : CacheState) (key : String) (now : Nat)
    (h : mapGet m key = none) : mapGet (cleanup m now) key = none := by
  induction m with
  | nil => rfl
  | cons p t ih =>
    have hb : (p.1 == key) = false := by
      cases hpb : (p.1 == key) with
      | false => rfl
      | true => simp [mapGet, hpb] at h
    have ht : mapGet t key = none := by simpa [mapGet, hb] using h
    by_cases hold : now - p.2.timestamp > CACHE_TTL
    · simpa [cleanup, hold] using ih ht
    · simpa [cleanup, hold, mapGet, hb] using ih ht

/-- C2: for every tool name, query, params and prior cache state, a
`setCachedResult` followed by an immediate `getCachedResult` returns the
stored result and leaves the cache unchanged, and a `getCachedResult`
strictly more than the TTL after the set returns `null` and deletes the
entry as a side effect. -/
theorem C2_cache_set_then_get (st : CacheState) (now dt : Nat) (toolName query : String)
    (result params : JSVal) (h : CACHE_TTL < dt) :
    getCachedResult (setCachedResult st now toolName query result params) now
        toolName query params
      = (result, setCachedResult st now toolName query result params)
    ∧ getCachedResult (setCachedResult st now toolName query result params) (now + dt)
        toolName query params
      = (JSVal.null, mapDelete (setCachedResult st now toolName query result params)
          (generateCacheKey toolName query params)) := by
  have h0 : 0 < CACHE_TTL := by decide
  constructor
  · simp [getCachedResult, setCachedResult, mapSet, mapGet, Nat.sub_self, h0]
  · have hsub : now + dt - now = dt := by omega
    have hd : ¬ (dt < CACHE_TTL) := by omega
    simp [getCachedResult, setCachedResult, mapSet, mapGet, mapDelete, hsub, hd]

/-- Witness of C2 at a concrete set/get pair. -/
theorem C2_witness :
    getCachedResult (setCachedResult [] 0 "searchTokens" "AERO price" (JSVal.str "ok") JSVal.undef)
        0 "searchTokens" "AERO price" JSVal.undef
      = (JSVal.str "ok",
         setCachedResult [] 0 "searchTokens" "AERO price" (JSVal.str "ok") JSVal.undef)
    ∧ getCachedResult (setCachedResult [] 0 "searchTokens" "AERO price" (JSVal.str "ok") JSVal.undef)
        (0 + (CACHE_TTL + 1)) "searchTokens" "AERO price" JSVal.undef
      = (JSVal.null,
         mapDelete (setCachedResult [] 0 "searchTokens" "AERO price" (JSVal.str "ok") JSVal.undef)
           (generateCacheKey "searchTokens" "AERO price" JSVal.undef)) :=
  C2_cache_set_then_get [] 0 (CACHE_TTL + 1) "searchTokens" "AERO price"
    (JSVal.str "ok") JSVal.undef (by decide)

/-- C9 counterexample: at an age of exactly the TTL the entry is already
treated as expired — `getCachedResult` returns `null`, not the stored
result, contradicting the claim that any age less than or equal to the TTL
still hits. -/
theorem C9_counterexample :
    (getCachedResult (setCachedResult [] 0 "searchTokens" "aero" (JSVal.str "cached") JSVal.undef)
        CACHE_TTL "searchTokens" "aero" JSVal.undef).1 = JSVal.null
    ∧ JSVal.str "cached" ≠ JSVal.null :=
  ⟨rfl, fun h => JSVal.noConfusion h⟩

/-- C9 (amended): `getCachedResult` treats an entry as live exactly when
`now - timestamp < CACHE_TTL` (strictly less), returning `null` and
deleting the entry from age `CACHE_TTL` onwards, while `cleanup` destroys
an entry exactly when `now - timestamp > CACHE_TTL` (strictly greater), so
at age exactly the TTL a lookup misses but a sweep retains. -/
theorem C9_expiry_semantics (st : CacheState) (ts now : Nat) (toolName query : String)
    (result params : JSVal) :
    (now - ts < CACHE_TTL →
      getCachedResult (setCachedResult st ts toolName query result params) now
          toolName query params
        = (result, setCachedResult st ts toolName query result params))
    ∧ (CACHE_TTL ≤ now - ts →
      getCachedResult (setCachedResult st ts toolName query result params) now
          toolName query params
        = (JSVal.null, mapDelete (setCachedResult st ts toolName query result params)
            (generateCacheKey toolName query params)))
    ∧ (mapGet (cleanup (setCachedResult st ts toolName query result params) now)
          (generateCacheKey toolName query params)
        = some { result := result, timestamp := ts, query := query, toolName := toolName }
      ↔ now - ts ≤ CACHE_TTL) := by
  refine ⟨?_, ?_, ?_⟩
  · intro hfresh
    simp [getCachedResult, setCachedResult, mapSet, mapGet, hfresh]
  · intro hold
    have hd : ¬ (now - ts < CACHE_TTL) := by omega
    simp [getCachedResult, setCachedResult, mapSet, mapGet, mapDelete, hd]
  · constructor
    · intro hkeep
      by_contra hgt
      have hgt2 : now - ts > CACHE_TTL := by omega
      have habsent : mapGet (cleanup (setCachedResult st ts toolName query result params) now)
          (generateCacheKey toolName query params) = none := by
        have hdel := mapGet_mapDelete_self st (generateCacheKey toolName query params)
        have := mapGet_cleanup_of_none (mapDelete st (generateCacheKey toolName query params))
          (generateCacheKey toolName query params) now hdel
        simpa [setCachedResult, mapSet, cleanup, hgt2] using this
      rw [habsent] at hkeep
      exact Option.noConfusion hkeep
    · intro hle
      have hng : ¬ (now - ts > CACHE_TTL) := by omega
      simp [cleanup, setCachedResult, mapSet, mapGet, hng]

/-- Witness of the amended C9 at a concrete age strictly below the TTL. -/
theorem C9_witness :
    getCachedResult (setCachedResult [] 0 "t" "q" (JSVal.str "v") JSVal.undef) 299999
        "t" "q" JSVal.undef
      = (JSVal.str "v", setCachedResult [] 0 "t" "q" (JSVal.str "v") JSVal.undef) :=
  (C9_expiry_semantics [] 0 299999 "t" "q" (JSVal.str "v") JSVal.undef).1 (by decide)

/-- C1 counterexample: a first turn that made a tool call and whose every
tool result is the empty array — results the claim calls empty — does not
trigger the follow-up: only one turn is issued, not the claimed exactly-one
follow-up, because the code tests JavaScript falsiness of each result and
an empty array is truthy. -/
theorem C1_counterexample :
    (generateDetailedResponse (fun _ =>
      ⟨"x", some ["searchTokens"], some [⟨"searchTokens", JSVal.arr []⟩], none⟩)).2 = 1
    ∧ (generateDetailedResponse (fun _ =>
      ⟨"x", some ["searchTokens"], some [⟨"searchTokens", JSVal.arr []⟩], none⟩)).2 ≠ 2 :=
  ⟨rfl, by decide⟩

/-- C1 (amended): whenever the first main turn produced no tool calls, or
no tool results, or only tool results whose value is JavaScript-falsy
(null, undefined, false, zero or the empty string — an empty array or
empty object is truthy and does not count), exactly one follow-up turn is
issued (two turns total); the follow-up result supersedes the first
exactly when it made at least one tool call; and the outcome depends on
nothing beyond the first two turns, so no second retry is ever
attempted. -/
theorem C1_retry_policy (turns : Nat → TurnResult)
    (h : needsFollowUp (turns 0) = true) :
    (generateDetailedResponse turns).2 = 2
    ∧ (generateDetailedResponse turns).1
      = (if followUpHasToolCalls (turns 1) then turns 1 else turns 0)
    ∧ ∀ turns2 : Nat → TurnResult, turns2 0 = turns 0 → turns2 1 = turns 1 →
        generateDetailedResponse turns2 = generateDetailedResponse turns := by
  refine ⟨?_, ?_, ?_⟩
  · simp only [generateDetailedResponse, h, if_true]
    split <;> rfl
  · simp only [generateDetailedResponse, h, if_true]
    split <;> rfl
  · intro turns2 h0 h1
    simp only [generateDetailedResponse, h0, h1]

/-- Witness of the amended C1: a toolless first turn forces exactly one
follow-up turn. -/
theorem C1_witness :
    (generateDetailedResponse (fun _ => ⟨"", some [], some [], none⟩)).2 = 2 :=
  (C1_retry_policy (fun _ => ⟨"", some [], some [], none⟩) rfl).1

/-- C3: on a component-cache miss, when the raced LLM generation rejects
(a thrown error or the 15-second timeout firing), `generateStyledComponent`
still resolves — with the deterministic fallback component, whose
`componentType` is "data-display" and whose explanation names the timeout
fallback — and caches nothing. -/
theorem C3_timeout_fallback (cache : ComponentCache) (toolResults : List ToolResultEntry)
    (context : String) (e : String)
    (h : mapGet cache (ComponentGenerator.generateCacheKey toolResults context) = none) :
    generateStyledComponent cache (Except.error e) toolResults context
      = (fallbackComponent toolResults, cache, true)
    ∧ (fallbackComponent toolResults).componentType = "data-display"
    ∧ (fallbackComponent toolResults).explanation
      = "Fallback component due to UI generation timeout" := by
  refine ⟨?_, rfl, rfl⟩
  simp [generateStyledComponent, h]

/-- Witness of C3 at a concrete hanging generation. -/
theorem C3_witness :
    generateStyledComponent [] (Except.error "UI generation timeout")
        [⟨"searchTokens", JSVal.str "AERO"⟩] "price of AERO"
      = (fallbackComponent [⟨"searchTokens", JSVal.str "AERO"⟩], [], true)
    ∧ (fallbackComponent [⟨"searchTokens", JSVal.str "AERO"⟩]).componentType = "data-display"
    ∧ (fallbackComponent [⟨"searchTokens", JSVal.str "AERO"⟩]).explanation
      = "Fallback component due to UI generation timeout" :=
  C3_timeout_fallback [] [⟨"searchTokens", JSVal.str "AERO"⟩] "price of AERO"
    "UI generation timeout" rfl

/-- C4: whenever the underlying LLM call rejects, `generateQuickResponse`
resolves to the fixed fallback string; the function is total, so the error
never propagates. -/
theorem C4_quick_reply_fallback (e : String) :
    generateQuickResponse (Except.error e)
      = "Great question! I'm gathering real-time data for you and will provide detailed insights shortly. 🤔" :=
  rfl

/-- C7: two successive `generateStyledComponent` calls with identical
arguments, the first a cache miss whose LLM generation succeeds, issue
exactly one LLM invocation — the second call hits the component cache
(whatever its own generation oracle would have produced) and returns the
identical cached object without touching the cache. -/
theorem C7_component_cache_hit (cache : ComponentCache) (comp : UIComponent)
    (g2 : Except String UIComponent) (toolResults : List ToolResultEntry) (context : String)
    (h : mapGet cache (ComponentGenerator.generateCacheKey toolResults context) = none) :
    (generateStyledComponent cache (Except.ok comp) toolResults context).1 = comp
    ∧ (generateStyledComponent cache (Except.ok comp) toolResults context).2.2 = true
    ∧ generateStyledComponent
        (generateStyledComponent cache (Except.ok comp) toolResults context).2.1
        g2 toolResults context
      = (comp, (generateStyledComponent cache (Except.ok comp) toolResults context).2.1, false) := by
  have h1 : generateStyledComponent cache (Except.ok comp) toolResults context
      = (comp, mapSet cache (ComponentGenerator.generateCacheKey toolResults context) comp, true) := by
    simp [generateStyledComponent, h]
  refine ⟨by rw [h1], by rw [h1], ?_⟩
  rw [h1]
  simp [generateStyledComponent, mapSet, mapGet]

/-- Witness of C7 at a concrete pair of identical calls. -/
theorem C7_witness :
    (generateStyledComponent [] (Except.ok ⟨"<div/>", [], "unit", "chart"⟩)
        [⟨"searchTokens", JSVal.str "AERO"⟩] "price of AERO").1
      = ⟨"<div/>", [], "unit", "chart"⟩
    ∧ (generateStyledComponent [] (Except.ok ⟨"<div/>", [], "unit", "chart"⟩)
        [⟨"searchTokens", JSVal.str "AERO"⟩] "price of AERO").2.2 = true
    ∧ generateStyledComponent
        (generateStyledComponent [] (Except.ok ⟨"<div/>", [], "unit", "chart"⟩)
          [⟨"searchTokens", JSVal.str "AERO"⟩] "price of AERO").2.1
        (Except.error "no second invocation")
        [⟨"searchTokens", JSVal.str "AERO"⟩] "price of AERO"
      = (⟨"<div/>", [], "unit", "chart"⟩,
         (generateStyledComponent [] (Except.ok ⟨"<div/>", [], "unit", "chart"⟩)
           [⟨"searchTokens", JSVal.str "AERO"⟩] "price of AERO").2.1, false) :=
  C7_component_cache_hit [] ⟨"<div/>", [], "unit", "chart"⟩ (Except.error "no second invocation")
    [⟨"searchTokens", JSVal.str "AERO"⟩] "price of AERO" rfl

/-- Helper: on an empty cache, a cached tool execution whose tool always
rejects resolves to `null` and leaves the cache empty. -/
theorem executeToolWithCache_empty_reject (now : Nat) (toolName query : String)
    (fn : JSVal → Except String JSVal) (params : JSVal)
    (h : ∀ p, ∃ e, fn p = Except.error e) :
    executeToolWithCache [] now toolName query fn params = (JSVal.null, []) := by
  obtain ⟨e, he⟩ :=
    h (if jsFalsy params then JSVal.obj [("query", JSVal.str query)] else params)
  simp [executeToolWithCache, getCachedResult, mapGet, he, isNull]

/-- C5: for every query, when every available tool function always
rejects, pre-warming from an empty cache yields a map whose every stored
promise resolved to `null` — the rejections are swallowed — and the
pre-warm operation itself is a total function, so it never rejects. -/
theorem C5_prewarm_resolves_null (now : Nat) (tools : BaseTools) (query : String)
    (h : alwaysRejects tools) :
    ((preWarmToolCalls [] now tools query).1).all (fun p => isNull p.2) = true := by
  obtain ⟨h1, h2, h3⟩ := h
  rcases hst : tools.searchTokens with _ | fn1 <;>
    rcases hsa : tools.searchAddress with _ | fn2 <;>
      rcases hsd : tools.searchDigitalAsset with _ | fn3
  · simp only [preWarmToolCalls, hst, hsa, hsd]
    split_ifs <;> simp [isNull]
  · have E3 := fun p => executeToolWithCache_empty_reject now "searchDigitalAsset" query fn3 p
      (h3 fn3 hsd)
    simp only [preWarmToolCalls, hst, hsa, hsd]
    split_ifs <;> simp [E3, isNull]
  · have E2 := fun p => executeToolWithCache_empty_reject now "searchAddress" query fn2 p
      (h2 fn2 hsa)
    simp only [preWarmToolCalls, hst, hsa, hsd]
    split_ifs <;> simp [E2, isNull]
  · have E2 := fun p => executeToolWithCache_empty_reject now "searchAddress" query fn2 p
      (h2 fn2 hsa)
    have E3 := fun p => executeToolWithCache_empty_reject now "searchDigitalAsset" query fn3 p
      (h3 fn3 hsd)
    simp only [preWarmToolCalls, hst, hsa, hsd]
    split_ifs <;> simp [E2, E3, isNull]
  · have E1 := fun p => executeToolWithCache_empty_reject now "searchTokens" query fn1 p
      (h1 fn1 hst)
    simp only [preWarmToolCalls, hst, hsa, hsd]
    split_ifs <;> simp [E1, isNull]
  · have E1 := fun p => executeToolWithCache_empty_reject now "searchTokens" query fn1 p
      (h1 fn1 hst)
    have E3 := fun p => executeToolWithCache_empty_reject now "searchDigitalAsset" query fn3 p
      (h3 fn3 hsd)
    simp only [preWarmToolCalls, hst, hsa, hsd]
    split_ifs <;> simp [E1, E3, isNull]
  · have E1 := fun p => executeToolWithCache_empty_reject now "searchTokens" query fn1 p
      (h1 fn1 hst)
    have E2 := fun p => executeToolWithCache_empty_reject now "searchAddress" query fn2 p
      (h2 fn2 hsa)
    simp only [preWarmToolCalls, hst, hsa, hsd]
    split_ifs <;> simp [E1, E2, isNull]
  · have E1 := fun p => executeToolWithCache_empty_reject now "searchTokens" query fn1 p
      (h1 fn1 hst)
    have E2 := fun p => executeToolWithCache_empty_reject now "searchAddress" query fn2 p
      (h2 fn2 hsa)
    have E3 := fun p => executeToolWithCache_empty_reject now "searchDigitalAsset" query fn3 p
      (h3 fn3 hsd)
    simp only [preWarmToolCalls, hst, hsa, hsd]
    split_ifs <;> simp [E1, E2, E3, isNull]

/-- Witness of C5 with three always-rejecting tools on a query matching
every keyword pattern. -/
theorem C5_witness :
    ((preWarmToolCalls [] 0
        ⟨some (fun _ => Except.error "network"), some (fun _ => Except.error "network"),
         some (fun _ => Except.error "network")⟩
        "search my portfolio of digital assets").1).all (fun p => isNull p.2) = true :=
  C5_prewarm_resolves_null 0
    ⟨some (fun _ => Except.error "network"), some (fun _ => Except.error "network"),
     some (fun _ => Except.error "network")⟩
    "search my portfolio of digital assets"
    ⟨fun fn hfn p => ⟨"network", by cases hfn; rfl⟩,
     fun fn hfn p => ⟨"network", by cases hfn; rfl⟩,
     fun fn hfn p => ⟨"network", by cases hfn; rfl⟩⟩

/-- C6 counterexample: for the second `shouldGenerateUI` variant the
stringified tool results do contain the trigger keyword "price", yet the
call returns `false` because the message itself has no trigger — the
claimed disjunction over message and results does not hold for this
variant. -/
theorem C6_counterexample :
    strContains (jsToLower (stringify (JSVal.obj
        [("toolName", JSVal.str "searchTokens"), ("result", JSVal.str "price")]))) "price" = true
    ∧ shouldGenerateUI_v2 (some [JSVal.obj
        [("toolName", JSVal.str "searchTokens"), ("result", JSVal.str "price")]]) "hello" = false :=
  ⟨rfl, rfl⟩

/-- C6 (amended): with a non-empty `toolResults` array, the first variant
returns true whenever the lower-cased message contains a trigger keyword
and whenever some stringified result contains one, while the second
variant returns true exactly when the lower-cased message contains a
trigger keyword, ignoring the results; on the concrete scenario — tool
results `[{token:"AERO", price:0.85}]`, message "price of AERO" — both
variants return true. -/
theorem C6_keyword_triggering (rs : List JSVal) (msg : String) (hne : rs ≠ []) :
    ((uiTriggers.any fun trigger => strContains (jsToLower msg) trigger) = true →
      shouldGenerateUI_v1 (some rs) msg = true)
    ∧ ((rs.any fun r => uiTriggers.any fun trigger =>
          strContains (jsToLower (stringify r)) trigger) = true →
      shouldGenerateUI_v1 (some rs) msg = true)
    ∧ shouldGenerateUI_v2 (some rs) msg
      = (uiTriggers.any fun trigger => strContains (jsToLower msg) trigger)
    ∧ shouldGenerateUI_v1
        (some [JSVal.obj [("token", JSVal.str "AERO"), ("price", JSVal.num "0.85")]])
        "price of AERO" = true
    ∧ shouldGenerateUI_v2
        (some [JSVal.obj [("token", JSVal.str "AERO"), ("price", JSVal.num "0.85")]])
        "price of AERO" = true := by
  have hem : rs.isEmpty = false := by
    cases rs with
    | nil => exact absurd rfl hne
    | cons a t => rfl
  refine ⟨?_, ?_, ?_, rfl, rfl⟩
  · intro hmsg
    simp [shouldGenerateUI_v1, hem, hmsg]
  · intro hdata
    simp only [shouldGenerateUI_v1, hem, Bool.if_false_left]
    rcases List.any_eq_true.mp hdata with ⟨x, hx, hpx⟩
    have : (rs.any fun result =>
        (uiTriggers.any fun trigger =>
          strContains (jsToLower (stringify result)) trigger)
        || (match result with
            | JSVal.arr _ => true
            | JSVal.obj fs => decide (fs.length > 0)
            | _ => false)) = true :=
      List.any_eq_true.mpr ⟨x, hx, by simp [hpx]⟩
    simp [this, hem]
  · simp [shouldGenerateUI_v2, hem]

/-- Witness of the amended C6: a result whose stringification contains
"price" triggers the first variant even for a message with no keyword. -/
theorem C6_witness :
    shouldGenerateUI_v1 (some [JSVal.str "the price today"]) "hello" = true :=
  (C6_keyword_triggering [JSVal.str "the price today"] "hello" (by simp)).2.1 (by rfl)

/-- C8: in the trace of messages sent for one chat request, any message
whose `isQuickResponse` field is `false` — the detailed response — sits at
a strictly positive index, carries the request id, and is preceded at
index zero by the quick response carrying `isQuickResponse` `true` and the
same request id. -/
theorem C8_quick_precedes_detailed (rid : String) (quickLLM : Except String String)
    (detailedOutcome : Except String (Nat → TurnResult)) (i : Nat) (m : OutMsg)
    (hm : (onMessageChat rid quickLLM detailedOutcome).get? i = some m)
    (hq : m.isQuickResponse = some false) :
    0 < i ∧ m.requestId = some rid
    ∧ ∃ m0, (onMessageChat rid quickLLM detailedOutcome).get? 0 = some m0
        ∧ m0.isQuickResponse = some true ∧ m0.requestId = some rid := by
  rcases detailedOutcome with e | turns
  · rcases i with _ | _ | i
    · simp [onMessageChat] at hm
      rw [← hm] at hq
      simp at hq
    · simp only [onMessageChat, generateDetailedResponseMsgs, List.get?] at hm
      rw [Option.some_inj] at hm
      rw [← hm] at hq
      simp at hq
    · simp [onMessageChat, generateDetailedResponseMsgs, List.get?] at hm
  · rcases i with _ | _ | i
    · simp [onMessageChat] at hm
      rw [← hm] at hq
      simp at hq
    · simp only [onMessageChat, generateDetailedResponseMsgs, List.get?] at hm
      rw [Option.some_inj] at hm
      refine ⟨by omega, ?_, ?_⟩
      · rw [← hm]
      · exact ⟨_, rfl, rfl, rfl⟩
    · simp [onMessageChat, generateDetailedResponseMsgs, List.get?] at hm

/-- Witness of C8 at a concrete request trace. -/
theorem C8_witness :
    0 < 1
    ∧ (⟨"response", "done", some false, some "1734", none⟩ : OutMsg).requestId = some "1734"
    ∧ ∃ m0, (onMessageChat "1734" (Except.ok "hi")
          (Except.ok fun _ => ⟨"done", some [], some [], none⟩)).get? 0 = some m0
        ∧ m0.isQuickResponse = some true ∧ m0.requestId = some "1734" :=
  C8_quick_precedes_detailed "1734" (Except.ok "hi")
    (Except.ok fun _ => ⟨"done", some [], some [], none⟩) 1
    ⟨"response", "done", some false, some "1734", none⟩ rfl rfl

/-- C10: whenever `toolResults` is null/undefined (`none`) or the empty
array, both `shouldGenerateUI` variants return false regardless of the
user message, so a turn without tool results never triggers UI
generation. -/
theorem C10_empty_results_no_ui (toolResults : Option (List JSVal)) (msg : String)
    (h : toolResults = none ∨ toolResults = some []) :
    shouldGenerateUI_v1 toolResults msg = false
    ∧ shouldGenerateUI_v2 toolResults msg = false := by
  rcases h with h | h <;> subst h <;> exact ⟨rfl, rfl⟩

/-- Witness of C10 on an empty result array and a keyword-bearing
message. -/
theorem C10_witness :
    shouldGenerateUI_v1 (some []) "price of AERO" = false
    ∧ shouldGenerateUI_v2 (some []) "price of AERO" = false :=
  C10_empty_results_no_ui (some []) "price of AERO" (Or.inr rfl)

end Theorems
